import Mathlib

/-!
Shallow embedding of the `OpenAIImagesIO` adapter from
`src/website/src/pages/features/captureFiles/captureFiles.js` (the class
spanning the second half of that file). JavaScript objects with optional
fields become structures with `Option` fields; JS truthiness on strings and
numbers is modelled explicitly (empty string and zero are falsy); mutation
becomes explicit state passing on `AdapterState`; `throw` becomes `Except`.
External collaborators that are not part of this repository's shown source
(`OpenAIUtils`, the markdown renderer, the base64 data-URI constant) are
modelled from the spec and marked as such in their doc comments.
-/

set_option autoImplicit false

namespace OpenAIImages

/-- A binary file attachment; content is opaque, only identity matters. -/
structure File where
  name : String
deriving DecidableEq, Repr

/-- One chat message; only its `content` text is read by the adapter. -/
structure MessageContent where
  content : String
deriving DecidableEq, Repr

/-- HTTP headers as an association list of name/value pairs. -/
abbrev Headers := List (String × String)

/-- The `RequestSettings` object: optional URL override and optional headers object.
`{url := none, headers := none}` models the empty JS object `{}`. -/
structure RequestSettings where
  url : Option String := none
  headers : Option Headers := none
deriving DecidableEq, Repr

/-- The info-modal configuration; both fields optional (absent = `none`). -/
structure InfoModal where
  openModalOnce : Option Bool := none
  textMarkDown : Option String := none
deriving DecidableEq, Repr

/-- The `FileAttachments` file policy: accepted formats, max file count,
info-modal settings; each field optional. -/
structure FileAttachments where
  acceptedFormats : Option String := none
  maxNumberOfFiles : Option Nat := none
  infoModal : Option InfoModal := none
deriving DecidableEq, Repr

/-- The adapter's resolved `images` configuration. -/
structure Images where
  files : Option FileAttachments := none
  infoModalTextMarkUp : Option String := none
deriving DecidableEq, Repr

/-- The `OpenAIImagesConfig` template: the raw request-body template of scalar
remote-API fields (`prompt`, `n`, `size`); absent fields are `none`. -/
structure OpenAIImagesConfig where
  prompt : Option String := none
  n : Option Nat := none
  size : Option String := none
deriving DecidableEq, Repr

/-- The caller's images service config object (`OpenAI['images']` in object
form): a `files` policy, a `request` settings object, and the remaining
keys, which form the raw body template. -/
structure ImagesFullConfig where
  files : Option FileAttachments := none
  request : Option RequestSettings := none
  body : OpenAIImagesConfig := {}
deriving DecidableEq, Repr

/-- The `OpenAI['images']` value is `boolean | config-object` in the source; `none`
at the `AiAssistant` level models `undefined`. -/
inductive ImagesServiceConfig where
  | bool (b : Bool)
  | obj (c : ImagesFullConfig)
deriving DecidableEq, Repr

/-- The slice of the `AiAssistant` element the constructor reads.
`openAICompletions` models the source's `openAI?.completions` access (the
constructor reads the `completions` key and casts it to the images config).
The `requestInterceptor` and `validateMessageBeforeSending` properties are
function-valued and only stored/substituted verbatim; they do not affect
any configuration or request content modelled here, so they are omitted. -/
structure AiAssistant where
  openAICompletions : Option ImagesServiceConfig := none
  inputCharacterLimit : Option Nat := none
deriving DecidableEq, Repr

/-- The adapter's mutable instance state: per-call `url`, resolved images
config, resolved max prompt length, request settings, raw body template. -/
structure AdapterState where
  url : String := ""
  images : Images := {}
  maxCharLength : Nat := 0
  requestSettings : RequestSettings := {}
  raw_body : OpenAIImagesConfig := {}
deriving DecidableEq, Repr

/-- JS truthiness of an optional string: absent and `""` are falsy. -/
def truthyStr : Option String → Bool
  | some s => s ≠ ""
  | none => false

/-- JS truthiness of an optional number: absent and `0` are falsy. -/
def truthyNat : Option Nat → Bool
  | some n => n ≠ 0
  | none => false

/-- JS `o || d` on an optional string: yields `d` when `o` is falsy. -/
def jsOrStr (o : Option String) (d : String) : String :=
  match o with
  | some s => if s = "" then d else s
  | none => d

/-- JS `s.trim()`: removes whitespace from both ends. Defined over the
character list (rather than core `String.trim`, whose `Substring`-based
implementation does not reduce in the kernel). -/
def jsTrim (s : String) : String :=
  String.mk (((s.data.dropWhile Char.isWhitespace).reverse.dropWhile Char.isWhitespace).reverse)

/-- JS `s.substring(0, n)`: the first `n` characters of `s`. -/
def substring0 (s : String) (n : Nat) : String :=
  String.mk (s.data.take n)

/-- Endpoint `https://api.openai.com/v1/images/generations`. -/
def IMAGE_GENERATION_URL : String := "https://api.openai.com/v1/images/generations"

/-- Endpoint `https://api.openai.com/v1/images/variations`. -/
def IMAGE_VARIATIONS_URL : String := "https://api.openai.com/v1/images/variations"

/-- Endpoint `https://api.openai.com/v1/images/edits`. -/
def IMAGE_EDIT_URL : String := "https://api.openai.com/v1/images/edits"

/-- The fixed explanatory markdown shown in the info modal. -/
def MODAL_MARKDOWN : String :=
  "\n1 image:\n\n- With text - edits image based on the text\n- No text - creates a variation of the image\n\n2 images:\n\n- The second image needs to be a copy of the first with a transparent area where the edit should take place.\nAdd text to describe the required modification.\n\nClick here for [more info](https://platform.openai.com/docs/guides/images/introduction).\n  "

/-- Modelled from the spec: the markdown renderer (`RemarkableConfig` /
`Remarkable.render`) is an external collaborator not under `src/`; the spec
says it is a pure, synchronous `render(markdownText) -> markupString`.
Modelled as a pure injective function on strings. -/
def renderMarkdown (md : String) : String :=
  "<rendered>" ++ md ++ "</rendered>"

/-- Modelled from the spec: `OpenAIUtils.IMAGES_MAX_CHAR_LENGTH` is not
under `src/`; the spec only says there is a "default value defined by the
adapter" for the maximum prompt character length. A fixed constant. -/
def IMAGES_MAX_CHAR_LENGTH : Nat := 1000

/-- Modelled from the spec: the `BASE_64_PREFIX` constant from
`imageUtils` is not under `src/`; the spec calls it "the fixed data-URI
prefix" prepended to base64 payloads. -/
def BASE64_DATA_URI : String := "data:image/png;base64,"

/-- Modelled from the spec: `OpenAIUtils.buildRequestSettings` is not under
`src/`. The spec says key setup "builds the authentication header" and
"merge[s] the key into the request settings as an authentication header",
and that "a later successful verification replaces the prior merged
header". Modelled as inserting an `Authorization` bearer header while
keeping every other setting. -/
def buildRequestSettings (key : String) (rs : RequestSettings) : RequestSettings :=
  { rs with
    headers := some (("Authorization", "Bearer " ++ key) ::
      (rs.headers.getD []).filter (fun p => p.1 ≠ "Authorization")) }

/-- The default `images` property value:
`{files: {acceptedFormats: '.png', maxNumberOfFiles: 2, infoModal: {openModalOnce: true}}}`. -/
def defaultImages : Images :=
  { files := some
      { acceptedFormats := some ".png"
        maxNumberOfFiles := some 2
        infoModal := some { openModalOnce := some true } } }

/-- Static `canSendMessage(text, files)`:
`!!files?.[0] || text.trim() !== ''`. A `File` object is always truthy, so
`!!files?.[0]` holds exactly when the list is present and non-empty. -/
def canSendMessage (text : String) (files : Option (List File)) : Bool :=
  (match files with
   | some (_ :: _) => true
   | _ => false) || jsTrim text ≠ ""

/-- JS `Object.assign(target, source?)` on two info-modal objects: each field
the source provides overwrites the target's. -/
def assignInfoModal (target : InfoModal) (source : Option InfoModal) : InfoModal :=
  match source with
  | none => target
  | some s =>
    { openModalOnce := s.openModalOnce.orElse (fun _ => target.openModalOnce)
      textMarkDown := s.textMarkDown.orElse (fun _ => target.textMarkDown) }

/-- Static `processImagesConfig(files, _images, remarkable)`: merges the
caller's file policy into the adapter's images config. The info-modal
branch runs first (merging modal settings and rendering the chosen
markdown), then `acceptedFormats` and `maxNumberOfFiles` are overridden
only when the caller's values are truthy. -/
def processImagesConfig (files : FileAttachments) (images0 : Images) : Images :=
  match images0.files with
  | none => images0
  | some f0 =>
    let step1 : Images :=
      match f0.infoModal with
      | none => images0
      | some im =>
        let im2 := assignInfoModal im files.infoModal
        let markdown := jsOrStr (files.infoModal.bind (fun m => m.textMarkDown)) MODAL_MARKDOWN
        { images0 with
          files := some { f0 with infoModal := some im2 }
          infoModalTextMarkUp := some (renderMarkdown markdown) }
    match step1.files with
    | none => step1
    | some f1 =>
      let f2 := if truthyStr files.acceptedFormats then
          { f1 with acceptedFormats := files.acceptedFormats } else f1
      let f3 := if truthyNat files.maxNumberOfFiles then
          { f2 with maxNumberOfFiles := files.maxNumberOfFiles } else f2
      { step1 with files := some f3 }

/-- Static `cleanConfig(config)`: `delete config.files; delete config.request`.
The source mutates the caller's config object in place; modelled as the
updated value, which the constructor writes back into the caller's
`AiAssistant`. -/
def cleanConfig (c : ImagesFullConfig) : ImagesFullConfig :=
  { c with files := none, request := none }

/-- The `files` policy carried by the caller's images config, if any. -/
def configFiles (a : AiAssistant) : Option FileAttachments :=
  match a.openAICompletions with
  | some (.obj c) => c.files
  | _ => none

/-- The `request` settings carried by the caller's images config, if any. -/
def configRequest (a : AiAssistant) : Option RequestSettings :=
  match a.openAICompletions with
  | some (.obj c) => c.request
  | _ => none

/-- The constructor `OpenAIImagesIO(aiAssistant, key?)`. Returns the
constructed adapter state together with the caller's `AiAssistant` as it
stands after construction: `cleanConfig` mutates the caller's config object
in place (deleting its `files` and `request` keys), which the returned
`AiAssistant` reflects. Truthiness: a zero `inputCharacterLimit` and an
empty-string `key` are falsy and behave as absent. -/
def mkAdapter (a : AiAssistant) (key : Option String) : AdapterState × AiAssistant :=
  let maxCharLength : Nat :=
    if truthyNat a.inputCharacterLimit then a.inputCharacterLimit.getD 0
    else IMAGES_MAX_CHAR_LENGTH
  let config := a.openAICompletions
  let requestSettingsIn : RequestSettings :=
    match config with
    | some (.obj c) => c.request.getD {}
    | _ => {}
  let requestSettings : RequestSettings :=
    if truthyStr key then buildRequestSettings (key.getD "") requestSettingsIn
    else {}
  match config with
  | some (.obj c) =>
    let images1 :=
      match c.files with
      | some f => processImagesConfig f defaultImages
      | none => defaultImages
    let cleaned := cleanConfig c
    (⟨"", images1, maxCharLength, requestSettings, c.body⟩,
     { a with openAICompletions := some (.obj cleaned) })
  | _ =>
    let images1 :=
      if (defaultImages.files.bind (fun f => f.infoModal)).isSome then
        { defaultImages with infoModalTextMarkUp := some (renderMarkdown MODAL_MARKDOWN) }
      else defaultImages
    (⟨"", images1, maxCharLength, requestSettings, {}⟩, a)

/-- Private `addKey(onSuccess, key)`: merges the key into the request
settings, then invokes the success handler with the key. The returned
string is the argument passed to `onSuccess`. -/
def addKey (st : AdapterState) (key : String) : AdapterState × String :=
  ({ st with requestSettings := buildRequestSettings key st.requestSettings }, key)

/-- The observable outcome of a key-verification attempt: which handler was
invoked, and with what. -/
inductive KeyVerifyEvent where
  | success (key : String)
  | fail
deriving DecidableEq, Repr

/-- Method `verifyKey`: the source delegates to `OpenAIUtils.verifyKey`, which is
not under `src/`. Modelled from the spec: it "asynchronously validates a
key against the remote service"; on success it runs the bound `addKey`
(merging the key and invoking the success handler); on failure it invokes
the failure handler. The remote outcome is the `outcome` parameter. -/
def verifyKey (st : AdapterState) (key : String) (outcome : Bool) :
    AdapterState × KeyVerifyEvent :=
  if outcome then
    let r := addKey st key
    (r.1, .success r.2)
  else
    (st, .fail)

/-- Looks up a header value by exact name. -/
def headerLookup (rs : RequestSettings) (name : String) : Option String :=
  ((rs.headers.getD []).find? (fun p => p.1 = name)).map (fun p => p.2)

/-- One part of a `FormData` multipart body: a binary file part or a
stringified scalar field. -/
inductive FormPart where
  | file (name : String) (f : File)
  | field (name : String) (value : String)
deriving DecidableEq, Repr

/-- The binary (file) parts of a multipart body, in order. -/
def binaryParts (ps : List FormPart) : List (String × File) :=
  ps.filterMap (fun p =>
    match p with
    | .file n f => some (n, f)
    | .field _ _ => none)

/-- JS `Object.keys(body).forEach(key => formData.append(key, String(body[key])))`:
every key present on the body template, stringified, in declaration order. -/
def bodyFormFields (body : OpenAIImagesConfig) : List FormPart :=
  (match body.prompt with
   | some p => [.field "prompt" p]
   | none => []) ++
  (match body.n with
   | some n => [.field "n" (toString n)]
   | none => []) ++
  (match body.size with
   | some s => [.field "size" s]
   | none => [])

/-- Static `createFormDataBody(body, image, mask?)`: appends `image`, then
`mask` when present, then every scalar field of the body template. -/
def createFormDataBody (body : OpenAIImagesConfig) (image : File) (mask : Option File) :
    List FormPart :=
  [.file "image" image] ++
  (match mask with
   | some m => [.file "mask" m]
   | none => []) ++
  bodyFormFields body

/-- Private `preprocessBody(body, messages)`: deep-copies the body template
(`JSON.parse(JSON.stringify(body))` — pure value copy here); when the
latest message's trimmed content is non-empty, sets the copy's `prompt` to
the latest message's content (not trimmed) cut to `maxCharLength`
characters; otherwise returns the copy unchanged. Total via `getLastD`;
the source would crash on an empty history, so theorems assume the history
is non-empty. -/
def preprocessBody (maxCharLength : Nat) (body : OpenAIImagesConfig)
    (messages : List MessageContent) : OpenAIImagesConfig :=
  let lastContent := (messages.getLastD ⟨""⟩).content
  if jsTrim lastContent ≠ "" then
    { body with prompt := some (substring0 lastContent maxCharLength) }
  else
    body

/-- The outgoing body handed to the transport: a JSON body or a multipart
form. -/
inductive HttpBody where
  | json (body : OpenAIImagesConfig)
  | multipart (parts : List FormPart)
deriving DecidableEq, Repr

/-- The dispatched request: target URL, the request settings in force at
dispatch, and the body. The source's temporary content-type removal around
multipart calls is handled by the external `RequestHeaderUtils`/transport
collaborators and restores the settings around the single call. -/
structure OutRequest where
  url : String
  settings : RequestSettings
  body : HttpBody
deriving DecidableEq, Repr

/-- Private `callApiWithImage(messages, handlers, files)`: with a second
file or non-empty trimmed latest text, targets the edit endpoint with
`image` and optional `mask`; otherwise targets the variation endpoint with
only `image`. Sets `this.url` before dispatch. Theorems assume `files` is
non-empty, as the caller guarantees. -/
def callApiWithImage (st : AdapterState) (messages : List MessageContent)
    (files : List File) : AdapterState × OutRequest :=
  let file0 := files.headD ⟨""⟩
  let file1 : Option File := files[1]?
  if file1.isSome || jsTrim (messages.getLastD ⟨""⟩).content ≠ "" then
    let url := jsOrStr st.requestSettings.url IMAGE_EDIT_URL
    let body := preprocessBody st.maxCharLength st.raw_body messages
    ({ st with url := url },
     { url := url, settings := st.requestSettings
       body := .multipart (createFormDataBody body file0 file1) })
  else
    let url := jsOrStr st.requestSettings.url IMAGE_VARIATIONS_URL
    ({ st with url := url },
     { url := url, settings := st.requestSettings
       body := .multipart (createFormDataBody st.raw_body file0 none) })

/-- Method `callApi(messages, handlers, _, files?)`: throws when no headers are
set; with an attached file delegates to `callApiWithImage`; otherwise
targets the generation endpoint with a JSON body. -/
def callApi (st : AdapterState) (messages : List MessageContent)
    (files : Option (List File)) : Except String (AdapterState × OutRequest) :=
  if st.requestSettings.headers.isNone then
    .error "Request settings have not been set up"
  else
    match files with
    | some (f :: rest) => .ok (callApiWithImage st messages (f :: rest))
    | _ =>
      let url := jsOrStr st.requestSettings.url IMAGE_GENERATION_URL
      let body := preprocessBody st.maxCharLength st.raw_body messages
      .ok ({ st with url := url },
           { url := url, settings := st.requestSettings, body := .json body })

/-- One entry of the raw service response's `data` array. -/
structure OpenAIImageData where
  url : Option String := none
  b64_json : Option String := none
deriving DecidableEq, Repr

/-- The service-reported error object. -/
structure ErrorObj where
  message : String
deriving DecidableEq, Repr

/-- The raw decoded JSON response. -/
structure OpenAIImageResult where
  data : List OpenAIImageData := []
  error : Option ErrorObj := none
deriving DecidableEq, Repr

/-- A normalized image result: hosted URL or inline base64 payload. -/
inductive ImageResult where
  | url (u : String)
  | base64 (b : String)
deriving DecidableEq, Repr

/-- JS string interpolation of a possibly-absent value: an absent
`b64_json` renders as the string `undefined` in the template literal. -/
def jsInterpolate (o : Option String) : String :=
  match o with
  | some s => s
  | none => "undefined"

/-- The per-entry mapping inside `extractResultData`'s `.map`:
`if (imageData.url) return imageData;` (a truthy, i.e. non-empty, URL wins)
`return {base64: BASE_64_PREFIX + imageData.b64_json};`. -/
def entryToResult (e : OpenAIImageData) : ImageResult :=
  match e.url with
  | some u => if u ≠ "" then .url u else .base64 (BASE64_DATA_URI ++ jsInterpolate e.b64_json)
  | none => .base64 (BASE64_DATA_URI ++ jsInterpolate e.b64_json)

/-- Method `extractResultData(result)`: throws the service error message when the
response carries an error object; otherwise maps each `data` entry to a
normalized result, in order. -/
def extractResultData (result : OpenAIImageResult) : Except String (List ImageResult) :=
  match result.error with
  | some e => .error e.message
  | none => .ok (result.data.map entryToResult)

end OpenAIImages

namespace OpenAIImages

/-! Sample inputs used by witness and counterexample theorems. -/

/-- Request settings with an (empty) headers object set, as after key setup. -/
def sampleSettings : RequestSettings := { headers := some [] }

/-- A concrete adapter state used by witnesses. -/
def sampleState : AdapterState :=
  { url := "", images := defaultImages, maxCharLength := 1000,
    requestSettings := sampleSettings, raw_body := { n := some 2 } }

/-- A concrete successful raw response used by the C3 witness. -/
def sampleOkResponse : OpenAIImageResult :=
  { data := [{ url := some "http://x" }, { b64_json := some "AAA" }] }

/-- A concrete error raw response used by the C4 witness. -/
def sampleErrResponse : OpenAIImageResult := { error := some ⟨"bad key"⟩ }

/-- A caller element whose images config supplies a files policy; used by
the C9 counterexample. -/
def sampleAssistantWithFiles : AiAssistant :=
  { openAICompletions := some (.obj { files := some { acceptedFormats := some ".jpg" } }) }

/-- A caller element whose images config supplies neither files nor request
fields; used by the C9 witness. -/
def sampleAssistantPlain : AiAssistant :=
  { openAICompletions := some (.obj { body := { n := some 1 } }) }

/-! Helper lemmas shared across claims. -/

theorem binaryParts_append (ps qs : List FormPart) :
    binaryParts (ps ++ qs) = binaryParts ps ++ binaryParts qs := by
  simp [binaryParts, List.filterMap_append]

theorem binaryParts_bodyFormFields (b : OpenAIImagesConfig) :
    binaryParts (bodyFormFields b) = [] := by
  rcases b with ⟨p, n, s⟩
  cases p <;> cases n <;> cases s <;> rfl

theorem binaryParts_createFormDataBody (b : OpenAIImagesConfig) (img : File) (mask : Option File) :
    binaryParts (createFormDataBody b img mask) =
      ("image", img) :: (match mask with
        | some m => [("mask", m)]
        | none => []) := by
  unfold createFormDataBody
  rw [binaryParts_append, binaryParts_append, binaryParts_bodyFormFields, List.append_nil]
  cases mask <;> rfl

theorem getLastD_eq_getLast (l : List MessageContent) (h : l ≠ []) (d : MessageContent) :
    l.getLastD d = l.getLast h := by
  cases l with
  | nil => exact absurd rfl h
  | cons a t => simp [List.getLastD_eq_getLast?, List.getLast?_eq_getLast]

/-! Claim theorems. -/

/-- C6: the adapter's default send-eligibility predicate is pure and true
exactly when a file is attached or the trimmed text is non-empty; in
particular it is false on `('', [])`, true on `('hello', [])`, and true on
`('', [file])`. -/
theorem canSendMessage_spec :
    (∀ (text : String) (files : Option (List File)),
      canSendMessage text files = true ↔ files.getD [] ≠ [] ∨ jsTrim text ≠ "") ∧
    canSendMessage "" (some []) = false ∧
    canSendMessage "hello" (some []) = true ∧
    (∀ f : File, canSendMessage "" (some [f]) = true) := by
  refine ⟨?_, by decide, by decide, fun f => by simp [canSendMessage]⟩
  intro text files
  match files with
  | none => simp [canSendMessage]
  | some [] => simp [canSendMessage]
  | some (a :: t) => simp [canSendMessage]

/-- C10: when no key is supplied at construction, the adapter's request
settings are the empty object, for every caller configuration — including
one that supplies request settings, which are assigned only on the branch
where a key is present. -/
theorem mkAdapter_no_key_requestSettings_empty :
    ∀ a : AiAssistant, (mkAdapter a none).1.requestSettings = { url := none, headers := none } := by
  intro a
  rcases h : a.openAICompletions with _ | (b | cfg) <;>
    simp [mkAdapter, truthyStr, h]

end OpenAIImages

namespace OpenAIImages

/-- C5: key verification — on success the key is merged into the request
settings as an authentication header and the success handler is invoked
with the key, so a subsequent request carries the merged header; on failure
the failure handler is invoked and the prior request settings are left
unchanged. -/
theorem verifyKey_contract :
    ∀ (st : AdapterState) (key : String),
      ((verifyKey st key true).2 = .success key ∧
       (verifyKey st key true).1.requestSettings = buildRequestSettings key st.requestSettings ∧
       headerLookup (verifyKey st key true).1.requestSettings "Authorization" =
         some ("Bearer " ++ key) ∧
       (∀ messages : List MessageContent, ∃ r,
          callApi (verifyKey st key true).1 messages none = .ok r ∧
          headerLookup r.2.settings "Authorization" = some ("Bearer " ++ key))) ∧
      verifyKey st key false = (st, .fail) := by
  intro st key
  refine ⟨⟨rfl, rfl, by simp [verifyKey, addKey, buildRequestSettings, headerLookup], ?_⟩, rfl⟩
  intro messages
  refine ⟨_, rfl, ?_⟩
  simp [verifyKey, addKey, buildRequestSettings, headerLookup]

/-- C3: for every raw response without a service-reported error, the result
normalizer returns the image entries in order, mapping each entry with a
(truthy) hosted URL to a `url` result and every other entry to a `base64`
result whose payload is the fixed data-URI prefix followed by the entry's
`b64_json` payload. -/
theorem extractResultData_normalizes :
    ∀ res : OpenAIImageResult, res.error = none →
      extractResultData res = .ok (res.data.map entryToResult) ∧
      (∀ (e : OpenAIImageData) (u : String), e.url = some u → u ≠ "" →
        entryToResult e = .url u) ∧
      (∀ (e : OpenAIImageData) (b : String), truthyStr e.url = false → e.b64_json = some b →
        entryToResult e = .base64 (BASE64_DATA_URI ++ b)) := by
  intro res herr
  refine ⟨?_, ?_, ?_⟩
  · simp [extractResultData, herr]
  · intro e u hu hne
    simp [entryToResult, hu, hne]
  · intro e b hurl hb
    rcases h : e.url with _ | u
    · simp [entryToResult, h, hb, jsInterpolate]
    · rw [h] at hurl
      simp [truthyStr] at hurl
      simp [entryToResult, h, hurl, hb, jsInterpolate]

/-- Witness for C3 at a concrete two-entry response. -/
theorem extractResultData_normalizes_witness :
    sampleOkResponse.error = none ∧
    extractResultData sampleOkResponse =
      .ok [.url "http://x", .base64 "data:image/png;base64,AAA"] :=
  ⟨rfl, ((extractResultData_normalizes sampleOkResponse rfl).1).trans rfl⟩

/-- C4: for every raw response carrying a service-reported error object the
result normalizer fails with exactly the service's error message and
produces no image results, and it fails in no other case. -/
theorem extractResultData_error_cases :
    (∀ (res : OpenAIImageResult) (e : ErrorObj), res.error = some e →
       extractResultData res = .error e.message) ∧
    (∀ res : OpenAIImageResult, res.error = none →
       ∃ out, extractResultData res = .ok out) ∧
    (∀ (res : OpenAIImageResult) (msg : String), extractResultData res = .error msg →
       ∃ e, res.error = some e ∧ e.message = msg) := by
  refine ⟨?_, ?_, ?_⟩
  · intro res e herr
    simp [extractResultData, herr]
  · intro res herr
    exact ⟨res.data.map entryToResult, by simp [extractResultData, herr]⟩
  · intro res msg h
    rcases herr : res.error with _ | e
    · simp [extractResultData, herr] at h
    · refine ⟨e, rfl, ?_⟩
      simp [extractResultData, herr] at h
      exact h

/-- Witness for C4 at a concrete error response. -/
theorem extractResultData_error_cases_witness :
    sampleErrResponse.error = some ⟨"bad key"⟩ ∧
    extractResultData sampleErrResponse = .error "bad key" :=
  ⟨rfl, extractResultData_error_cases.1 sampleErrResponse ⟨"bad key"⟩ rfl⟩

end OpenAIImages

namespace OpenAIImages

/-- C1: every send call is classified into exactly one operation: zero
files selects generation (JSON body to the generation endpoint); one file
with empty trimmed text selects variation, the multipart form's only
binary part being `image`; one file with non-empty trimmed text, or two
files regardless of text, selects edit, with a `mask` binary part exactly
when a second file is attached. A caller-configured URL override wins over
each default endpoint (`jsOrStr`). -/
theorem callApi_classifies :
    ∀ (st : AdapterState) (messages : List MessageContent) (f m : File),
      st.requestSettings.headers.isNone = false →
      ((∀ files : Option (List File), files = none ∨ files = some [] →
         ∃ r, callApi st messages files = .ok r ∧
           r.2.url = jsOrStr st.requestSettings.url IMAGE_GENERATION_URL ∧
           ∃ b, r.2.body = .json b) ∧
       (jsTrim (messages.getLastD ⟨""⟩).content = "" →
         ∃ r, callApi st messages (some [f]) = .ok r ∧
           r.2.url = jsOrStr st.requestSettings.url IMAGE_VARIATIONS_URL ∧
           ∃ ps, r.2.body = .multipart ps ∧ binaryParts ps = [("image", f)]) ∧
       (jsTrim (messages.getLastD ⟨""⟩).content ≠ "" →
         ∃ r, callApi st messages (some [f]) = .ok r ∧
           r.2.url = jsOrStr st.requestSettings.url IMAGE_EDIT_URL ∧
           ∃ ps, r.2.body = .multipart ps ∧ binaryParts ps = [("image", f)]) ∧
       (∃ r, callApi st messages (some [f, m]) = .ok r ∧
          r.2.url = jsOrStr st.requestSettings.url IMAGE_EDIT_URL ∧
          ∃ ps, r.2.body = .multipart ps ∧
            binaryParts ps = [("image", f), ("mask", m)])) := by
  intro st messages f m hh
  refine ⟨?_, ?_, ?_, ?_⟩
  · rintro files (rfl | rfl) <;>
      exact ⟨({ st with url := jsOrStr st.requestSettings.url IMAGE_GENERATION_URL },
        { url := jsOrStr st.requestSettings.url IMAGE_GENERATION_URL
          settings := st.requestSettings
          body := .json (preprocessBody st.maxCharLength st.raw_body messages) }),
        by simp [callApi, hh], rfl, _, rfl⟩
  · intro hempty
    refine ⟨({ st with url := jsOrStr st.requestSettings.url IMAGE_VARIATIONS_URL },
      { url := jsOrStr st.requestSettings.url IMAGE_VARIATIONS_URL
        settings := st.requestSettings
        body := .multipart (createFormDataBody st.raw_body f none) }),
      ?_, rfl, createFormDataBody st.raw_body f none, rfl, ?_⟩
    · simp [callApi, hh, callApiWithImage, hempty, -List.getLastD_eq_getLast?]
    · rw [binaryParts_createFormDataBody]
  · intro hne
    refine ⟨({ st with url := jsOrStr st.requestSettings.url IMAGE_EDIT_URL },
      { url := jsOrStr st.requestSettings.url IMAGE_EDIT_URL
        settings := st.requestSettings
        body := .multipart
          (createFormDataBody (preprocessBody st.maxCharLength st.raw_body messages) f none) }),
      ?_, rfl, _, rfl, ?_⟩
    · simp [callApi, hh, callApiWithImage, hne, -List.getLastD_eq_getLast?]
    · rw [binaryParts_createFormDataBody]
  · refine ⟨({ st with url := jsOrStr st.requestSettings.url IMAGE_EDIT_URL },
      { url := jsOrStr st.requestSettings.url IMAGE_EDIT_URL
        settings := st.requestSettings
        body := .multipart
          (createFormDataBody (preprocessBody st.maxCharLength st.raw_body messages) f
            (some m)) }),
      ?_, rfl, _, rfl, ?_⟩
    · simp [callApi, hh, callApiWithImage]
    · rw [binaryParts_createFormDataBody]

/-- Witness for C1: a concrete edit call with two files. -/
theorem callApi_classifies_witness :
    sampleState.requestSettings.headers.isNone = false ∧
    (∃ r, callApi sampleState [⟨"hi"⟩] (some [⟨"img"⟩, ⟨"mask"⟩]) = .ok r ∧
       r.2.url = jsOrStr sampleState.requestSettings.url IMAGE_EDIT_URL ∧
       ∃ ps, r.2.body = .multipart ps ∧
         binaryParts ps = [("image", ⟨"img"⟩), ("mask", ⟨"mask"⟩)]) :=
  ⟨rfl, (callApi_classifies sampleState [⟨"hi"⟩] ⟨"img"⟩ ⟨"mask"⟩ rfl).2.2.2⟩

/-- C7: request construction never mutates the raw body template — after
any successful send call the adapter's raw body template equals its value
before the call. -/
theorem callApi_preserves_raw_body :
    ∀ (st : AdapterState) (messages : List MessageContent) (files : Option (List File)),
      st.requestSettings.headers.isNone = false →
      ∃ r, callApi st messages files = .ok r ∧ r.1.raw_body = st.raw_body := by
  intro st messages files hh
  match files with
  | none =>
    exact ⟨({ st with url := jsOrStr st.requestSettings.url IMAGE_GENERATION_URL },
      { url := jsOrStr st.requestSettings.url IMAGE_GENERATION_URL
        settings := st.requestSettings
        body := .json (preprocessBody st.maxCharLength st.raw_body messages) }),
      by simp [callApi, hh], rfl⟩
  | some [] =>
    exact ⟨({ st with url := jsOrStr st.requestSettings.url IMAGE_GENERATION_URL },
      { url := jsOrStr st.requestSettings.url IMAGE_GENERATION_URL
        settings := st.requestSettings
        body := .json (preprocessBody st.maxCharLength st.raw_body messages) }),
      by simp [callApi, hh], rfl⟩
  | some (f :: rest) =>
    refine ⟨callApiWithImage st messages (f :: rest), by simp [callApi, hh], ?_⟩
    simp only [callApiWithImage]
    split <;> rfl

/-- Witness for C7: a concrete one-file call with non-empty text. -/
theorem callApi_preserves_raw_body_witness :
    sampleState.requestSettings.headers.isNone = false ∧
    (∃ r, callApi sampleState [⟨"edit it"⟩] (some [⟨"img"⟩]) = .ok r ∧
       r.1.raw_body = sampleState.raw_body) :=
  ⟨rfl, callApi_preserves_raw_body sampleState [⟨"edit it"⟩] (some [⟨"img"⟩]) rfl⟩

end OpenAIImages

namespace OpenAIImages

theorem substring0_length_le (s : String) (n : Nat) : (substring0 s n).length ≤ n :=
  List.length_take_le n s.data

/-- C2 counterexample: for latest message `" a"` the built prompt is the
untrimmed text `" a"`, not the trimmed text truncated. -/
theorem preprocessBody_uses_untrimmed_text :
    (preprocessBody 1000 {} [⟨" a"⟩]).prompt = some " a" ∧
    (preprocessBody 1000 {} [⟨" a"⟩]).prompt ≠ some (substring0 (jsTrim " a") 1000) := by
  decide

/-- C2 (amended): when the latest message's trimmed text is non-empty the
built body's prompt equals the latest message's text — untrimmed — cut to
at most the configured maximum character length; emptiness is judged on
the trimmed text, and when it is empty the prompt field is not added,
leaving the template's prompt in place. -/
theorem preprocessBody_prompt_spec :
    ∀ (maxLen : Nat) (body : OpenAIImagesConfig) (messages : List MessageContent)
      (h : messages ≠ []),
      (jsTrim (messages.getLast h).content ≠ "" →
        (preprocessBody maxLen body messages).prompt =
          some (substring0 (messages.getLast h).content maxLen) ∧
        (substring0 (messages.getLast h).content maxLen).length ≤ maxLen) ∧
      (jsTrim (messages.getLast h).content = "" →
        preprocessBody maxLen body messages = body) := by
  intro maxLen body messages h
  have e : messages.getLastD ⟨""⟩ = messages.getLast h := getLastD_eq_getLast messages h ⟨""⟩
  constructor
  · intro hne
    refine ⟨?_, substring0_length_le _ _⟩
    simp [preprocessBody, e, hne, -List.getLastD_eq_getLast?]
  · intro heq
    simp [preprocessBody, e, heq, -List.getLastD_eq_getLast?]

/-- Witness for C2 (amended): a concrete truncation to 5 characters. -/
theorem preprocessBody_prompt_spec_witness :
    (([⟨"hello world"⟩] : List MessageContent) ≠ []) ∧
    (preprocessBody 5 {} [⟨"hello world"⟩]).prompt = some "hello" := by
  have h : ([⟨"hello world"⟩] : List MessageContent) ≠ [] := by decide
  refine ⟨h, ?_⟩
  have hg : ([⟨"hello world"⟩] : List MessageContent).getLast h = ⟨"hello world"⟩ := rfl
  have hw := (preprocessBody_prompt_spec 5 {} [⟨"hello world"⟩] h).1 (by rw [hg]; decide)
  refine hw.1.trans ?_
  rw [hg]
  decide

/-- C8 counterexample: a caller-provided empty accepted-formats value and a
zero max-file-count are provided values, yet the defaults are retained —
JS truthiness, not mere presence, decides the override. -/
theorem processImagesConfig_falsy_not_overridden :
    (processImagesConfig { acceptedFormats := some "", maxNumberOfFiles := some 0 }
        defaultImages).files.map (fun f => (f.acceptedFormats, f.maxNumberOfFiles)) =
      some (some ".png", some 2) ∧
    (some ((some "" : Option String), (some 0 : Option Nat))) ≠
      some ((some ".png" : Option String), (some 2 : Option Nat)) := by
  decide

/-- C8 (amended): a provided accepted-formats value overrides the default
exactly when it is non-empty, and a provided max-file-count exactly when it
is non-zero; otherwise (absent, empty, or zero) the built-in defaults —
PNG-only formats and a maximum of 2 files — are retained. -/
theorem processImagesConfig_merge_spec :
    ∀ files : FileAttachments,
      (processImagesConfig files defaultImages).files.map (fun f => f.acceptedFormats) =
        some (if truthyStr files.acceptedFormats then files.acceptedFormats
              else some ".png") ∧
      (processImagesConfig files defaultImages).files.map (fun f => f.maxNumberOfFiles) =
        some (if truthyNat files.maxNumberOfFiles then files.maxNumberOfFiles
              else some 2) := by
  intro files
  cases h1 : truthyStr files.acceptedFormats <;>
    cases h2 : truthyNat files.maxNumberOfFiles <;>
      simp [processImagesConfig, defaultImages, h1, h2]

/-- C9 counterexample: constructing twice from the same caller object is
not idempotent — the first construction deletes the config's `files` and
`request` keys in place, so the second run resolves a different images
policy (and modal markup) than the first. -/
theorem mkAdapter_rerun_differs :
    (mkAdapter (mkAdapter sampleAssistantWithFiles none).2 none).1 ≠
      (mkAdapter sampleAssistantWithFiles none).1 := by
  decide

/-- C9 (amended): the construction-time merge is a pure function of its
inputs, but the constructor mutates the caller's config object (deleting
its `files` and `request` fields); rerunning on the caller object the
first run leaves behind yields identical adapter content exactly in the
benign case — when the config supplied no `files` and no `request`
fields. -/
theorem mkAdapter_rerun_stable :
    ∀ (a : AiAssistant) (key : Option String),
      configFiles a = none → configRequest a = none →
      mkAdapter (mkAdapter a key).2 key = mkAdapter a key := by
  intro a key hf hr
  rcases a with ⟨ac, il⟩
  rcases ac with _ | b | c
  · rfl
  · rfl
  · rcases c with ⟨cf, cr, cb⟩
    have hcf : cf = none := hf
    have hcr : cr = none := hr
    subst hcf
    subst hcr
    rfl

/-- Witness for C9 (amended): a concrete config without `files`/`request`. -/
theorem mkAdapter_rerun_stable_witness :
    configFiles sampleAssistantPlain = none ∧ configRequest sampleAssistantPlain = none ∧
    mkAdapter (mkAdapter sampleAssistantPlain (some "k")).2 (some "k") =
      mkAdapter sampleAssistantPlain (some "k") :=
  ⟨rfl, rfl, mkAdapter_rerun_stable sampleAssistantPlain (some "k") rfl rfl⟩

end OpenAIImages
